import Mathlib

set_option maxRecDepth 100000

/-!
Verification of `rubrik_oracle_backup_clone.py` (pcrouleur/rubrik_oracle_tools).

The script defines a single Click command `cli` that orchestrates an Oracle
database clone from Rubrik RMAN backups: read an optional configuration file,
set up logging, validate inputs, resolve the backend target, live-mount the
backup files, discover the new mount directory, bootstrap an auxiliary
instance, build and run an RMAN duplicate script, and finally unmount.

All string manipulation is embedded over `List Char` so that every definition
is executable by the kernel.  Python single-character `str.split` is embedded
as `splitOnChar`, Python's substring test `in` as `pyInStr`, and so on.
The effectful body of `cli` is embedded as `cli_trace`, a function from the
parsed options plus an environment of external results (backend responses,
directory listings, SQL*Plus outputs) to the ordered list of observable
events the run performs, ending either in a raise event or in `Event.done`.
-/

/-! ## Character-list utilities (Python string primitives) -/

/-- Python `s.split(c)` for a single-character separator `c`:
`"a_b".split('_') == ['a','b']`, `"ab".split('_') == ['ab']`,
`"_".split('_') == ['','']`. -/
def splitOnChar (c : Char) : List Char → List (List Char)
  | [] => [[]]
  | x :: xs =>
    match splitOnChar c xs with
    | [] => [[]]
    | h :: t => if x = c then [] :: h :: t else (x :: h) :: t

/-- Python `needle in hay` needs a "needle starts hay" helper. -/
def leadsWith : List Char → List Char → Bool
  | [], _ => true
  | _ :: _, [] => false
  | a :: as, b :: bs => a == b && leadsWith as bs

/-- Python substring containment `needle in hay` on strings. -/
def pyInStr (needle : List Char) : List Char → Bool
  | [] => needle.isEmpty
  | c :: t => leadsWith needle (c :: t) || pyInStr needle t

/-- Python `int(s)` on a plain decimal numeral (the only shape the script
feeds it: version components and the parallelism degree). -/
def chars_to_nat (l : List Char) : Nat :=
  l.foldl (fun a c => a * 10 + (c.toNat - 48)) 0

/-- Python truthiness of an optional string (`None` and `""` are falsy). -/
def pyTruthyStr : Option String → Bool
  | none => false
  | some s => !s.data.isEmpty

/-- Python truthiness of an optional bool (`None` and `False` are falsy);
the script's flag variables hold `None` after some configuration-file
assignments, hence the `Option Bool` representation. -/
def pyTruthyBool : Option Bool → Bool
  | none => false
  | some b => b

/-! ## The parsed command-line options

One field per Click option of `cli` (lines 13-29 of the source), with the
Python runtime type each variable has when the body starts: flags are
booleans (wrapped in `Option` because the configuration-file code can later
overwrite them with `None`), optional string options are `Option String`,
`parallelism` is kept as the string Click delivers (`type=str`, default 4). -/

structure Opts where
  source_host_db : String
  mount_path : String
  new_oracle_name : String
  /-- `configuration_file`, already parsed: the key/value pairs of the
  file's `[parameters]` section (`none` when no `-f` was given). -/
  configuration_file : Option (List (String × String))
  time_restore : Option String
  oracle_home : Option String
  parallelism : String
  no_spfile : Option Bool
  no_file_name_check : Option Bool
  refresh_db : Option Bool
  control_files : Option String
  db_file_name_convert : Option String
  log_file_name_convert : Option String
  audit_file_dest : Option String
  core_dump_dest : Option String
  log_path : Option String
deriving DecidableEq, Repr

/-! ## Configuration-file handling (source lines 99-124) -/

/-- `configuration['parameters'][k]` / `k in configuration['parameters'].keys()`:
first value bound to key `k` in the section. -/
def cfgGet (cfg : List (String × String)) (k : String) : Option String :=
  (cfg.find? (fun kv => kv.1 == k)).map (fun kv => kv.2)

/-- ASCII lowercasing of one character (`str.lower` on the script's
configuration values, which are ASCII). -/
def pyLowerChar (c : Char) : Char :=
  if 'A' ≤ c ∧ c ≤ 'Z' then Char.ofNat (c.toNat + 32) else c

/-- `str.lower()` on an ASCII string. -/
def pyLower (s : String) : String :=
  ⟨s.data.map pyLowerChar⟩

/-- `configparser` boolean-literal parsing (`BOOLEAN_STATES`, on the
lowercased value).  A malformed literal raises `ValueError` in Python; the
claims only exercise well-formed literals, so that case is folded into
`none` here. -/
def pyBoolLiteral (v : String) : Option Bool :=
  let w := pyLower v
  if w = "1" ∨ w = "yes" ∨ w = "true" ∨ w = "on" then some true
  else if w = "0" ∨ w = "no" ∨ w = "false" ∨ w = "off" then some false
  else none

/-- `configuration['parameters'].getboolean(k)`: `None` when the key is
missing, otherwise the parsed boolean. -/
def cfgGetBoolean (cfg : List (String × String)) (k : String) : Option Bool :=
  (cfgGet cfg k).bind pyBoolLiteral

/-- Source lines 102-123: apply the configuration file on top of the
command-line options.  Each branch mirrors one `if k in ... .keys():`
statement, in source order.  Note two properties of the source faithfully
reproduced here: the `no_spfile` branch reads key `'spfile'` (line 105), and
there is no branch for `oracle_home` at all. -/
def applyConfig (cfg : List (String × String)) (o : Opts) : Opts :=
  let o := match cfgGet cfg "parallelism" with
    | some v => { o with parallelism := v }
    | none => o
  let o := if (cfgGet cfg "no_spfile").isSome then
      { o with no_spfile := cfgGetBoolean cfg "spfile" } else o
  let o := if (cfgGet cfg "no_file_name_check").isSome then
      { o with no_file_name_check := cfgGetBoolean cfg "no_file_name_check" } else o
  let o := if (cfgGet cfg "refresh_db").isSome then
      { o with refresh_db := cfgGetBoolean cfg "refresh_db" } else o
  let o := match cfgGet cfg "control_files" with
    | some v => { o with control_files := some v }
    | none => o
  let o := match cfgGet cfg "db_file_name_convert" with
    | some v => { o with db_file_name_convert := some v }
    | none => o
  let o := match cfgGet cfg "log_file_name_convert" with
    | some v => { o with log_file_name_convert := some v }
    | none => o
  let o := match cfgGet cfg "log_path" with
    | some v => { o with log_path := some v }
    | none => o
  let o := match cfgGet cfg "time_restore" with
    | some v => { o with time_restore := some v }
    | none => o
  let o := match cfgGet cfg "audit_file_dest" with
    | some v => { o with audit_file_dest := some v }
    | none => o
  let o := match cfgGet cfg "core_dump_dest" with
    | some v => { o with core_dump_dest := some v }
    | none => o
  o

/-- The options the body of `cli` actually runs with: the configuration file,
when given, is applied on top of the command-line values (lines 99-124). -/
def effectiveOpts (o : Opts) : Opts :=
  match o.configuration_file with
  | some cfg => applyConfig cfg o
  | none => o

/-! ## Target resolution (source lines 150-161) -/

/-- Which backend lookup resolves the mount target.  `unbound` records the
source's fall-through: in the pre-5.2.1 branch with no `racName` key in the
database metadata, `target_id` is never assigned (a `NameError` surfaces
later, at the `live_mount` call on line 178). -/
inductive TargetStrategy
  | rac
  | host
  | unified
  | unbound
deriving DecidableEq, Repr

/-- Source line 151: `rubrik.version.split("-")[0].split(".")` followed by
`int(...)` on components 0, 1, 2 (missing components read as 0; the real
backend always reports at least three). -/
def cdm_version_nums (version : String) : Nat × Nat × Nat :=
  let parts := splitOnChar '.' (((splitOnChar '-' version.data).headD []))
  (chars_to_nat (parts.headD []),
   chars_to_nat ((parts.drop 1).headD []),
   chars_to_nat ((parts.drop 2).headD []))

/-- Source line 152, the version gate exactly as written:
`int(v[0]) < 6 and int(v[1]) < 3 and (int(v[1]) < 2 or int(v[2]) < 1)`. -/
def pre_521_gate (M m p : Nat) : Bool :=
  decide (M < 6) && decide (m < 3) && (decide (m < 2) || decide (p < 1))

/-- Component-wise version ordering below 5.2.1, as the spec words it
("component-wise (major, minor, patch) — not lexicographic"); this is the
spec-side comparison used to judge the gate above. -/
def spec_version_below_521 (M m p : Nat) : Bool :=
  decide (M < 5) || (decide (M = 5) && (decide (m < 2) || (decide (m = 2) && decide (p < 1))))

/-- Source lines 152-161: choose the resolution strategy from the parsed
version and the `racName` entry of the database metadata.
`racEntry = none` means the key `'racName'` is absent; `some v` means the
key is present with value `v` (`none` inside for JSON null, which is falsy
in Python, as is the empty string). -/
def choose_target_strategy (ver : Nat × Nat × Nat) (racEntry : Option (Option String)) :
    TargetStrategy :=
  if pre_521_gate ver.1 ver.2.1 ver.2.2 then
    match racEntry with
    | some (some r) => if r ≠ "" then .rac else .host
    | some none => .host
    | none => .unbound
  else .unified

/-! ## Mount directory discovery (source lines 176, 187-195) -/

/-- Source line 188: `list(set(new_dirs) - set(old_dirs))` — the distinct
entries of the post-mount listing that are absent from the pre-mount one. -/
def new_mount_entries (before after : List String) : List String :=
  (after.filter (fun d => !(before.contains d))).dedup

/-- The message of the discovery ambiguity error (lines 192-193). -/
def ambiguity_msg (mp : String) : String :=
  "Multiple directories were created in " ++ mp ++
      " during this operation. Live mount directory cannot be determined"

/-- Source lines 188-193: accept the diff exactly when it has one entry, in
which case the backup path is `os.path.join(mount_path, entry)`; any other
cardinality raises the ambiguity error. -/
def discover_live_mount (mount_path : String) (before after : List String) :
    Except String String :=
  let lmd := new_mount_entries before after
  if lmd.length = 1 then .ok (mount_path ++ "/" ++ lmd.headD "")
  else .error (ambiguity_msg mount_path)

/-- Source line 195: `live_mount_directory[0].split('_')[1]` — the second
underscore-separated token of the discovered directory name, `none` when
index 1 does not exist (Python raises an unguarded `IndexError` there). -/
def extract_live_mount_id (dirName : String) : Option (List Char) :=
  (splitOnChar '_' dirName.data)[1]?

/-! ## Instance bootstrap (source lines 202-217) -/

/-- The local actions the bootstrap block performs, in order. -/
inductive BootAction
  | sqlplus (cmd : String)
  | writeFile (path : String) (content : String)
deriving DecidableEq, Repr

/-- Source lines 202-217: optional `shutdown immediate` on refresh, then
either a plain `startup nomount` (when `no_spfile` is truthy) or the
synthesis of a minimal init file `init<name>.ora` containing only
`db_name=<name>` followed by a `startup nomount pfile='...'` (when
`no_spfile` is falsy). -/
def bootstrap_actions (refresh_db no_spfile : Bool) (oracle_home new_oracle_name : String) :
    List BootAction :=
  (if refresh_db then [BootAction.sqlplus "shutdown immediate;"] else []) ++
  (if no_spfile then [BootAction.sqlplus "startup nomount"]
   else
     let init_file := oracle_home ++ "/dbs/init" ++ new_oracle_name ++ ".ora"
     [BootAction.writeFile init_file ("db_name=" ++ new_oracle_name ++ "\n"),
      BootAction.sqlplus ("startup nomount pfile='" ++ init_file ++ "'")])

/-- Does a bootstrap action write a file (synthesize the minimal pfile)? -/
def isWriteFileAct : BootAction → Bool
  | BootAction.writeFile _ _ => true
  | BootAction.sqlplus _ => false

/-! ## The RMAN duplicate script (source lines 229-253) -/

/-- Source line 235: `time_restore.replace("T", "")` — every occurrence of
the single character `T` is deleted (replaced by the empty string). -/
def stripT (t : String) : String :=
  ⟨t.data.filter (fun c => !(c == 'T'))⟩

/-- One optional `set` clause of the duplicate script (lines 239-248): emitted
only when its directive is truthy, verbatim-substituted. -/
def optClause (pre : String) (v : Option String) : List String :=
  if pyTruthyStr v then [pre ++ v.getD "" ++ " "] else []

/-- Source lines 229-253: the pieces successively appended to
`duplicate_commands`, in order.  The script string is their concatenation. -/
def duplicate_pieces (parallelism : Nat) (new_oracle_name : String)
    (time_restore : Option String) (no_spfile : Bool)
    (control_files db_file_name_convert log_file_name_convert
     audit_file_dest core_dump_dest : Option String)
    (mount_path source_db : String) (no_file_name_check : Bool) : List String :=
  ["run \x7b "] ++
  (List.range parallelism).map
    (fun x => "allocate auxiliary channel aux" ++ toString (x + 1) ++ " device type disk; ") ++
  ["duplicate database to " ++ new_oracle_name ++ " "] ++
  (if pyTruthyStr time_restore then
    ["until time \"TO_DATE('" ++ stripT (time_restore.getD "") ++
     "','YYYY-MM-DD HH24:MI:SS')\"  "]
   else []) ++
  (if !no_spfile then
    ["SPFILE parameter_value_convert ('" ++ source_db ++ "','" ++ new_oracle_name ++ "') "]
   else []) ++
  optClause "set  control_files = " control_files ++
  optClause "set  db_file_name_convert = " db_file_name_convert ++
  optClause "set  log_file_name_convert = " log_file_name_convert ++
  optClause "set  audit_file_dest = " audit_file_dest ++
  optClause "set  core_dump_dest = " core_dump_dest ++
  ["BACKUP LOCATION '" ++ mount_path ++ "' "] ++
  [if no_file_name_check then "NOFILENAMECHECK; \x7d" else "; \x7d"]

/-- The full duplicate script text (the value of `duplicate_commands` when
line 257 runs it). -/
def duplicate_script (parallelism : Nat) (new_oracle_name : String)
    (time_restore : Option String) (no_spfile : Bool)
    (control_files db_file_name_convert log_file_name_convert
     audit_file_dest core_dump_dest : Option String)
    (mount_path source_db : String) (no_file_name_check : Bool) : String :=
  String.join (duplicate_pieces parallelism new_oracle_name time_restore no_spfile
    control_files db_file_name_convert log_file_name_convert audit_file_dest
    core_dump_dest mount_path source_db no_file_name_check)

/-- Conformance of a 19-character literal to the script's declared date mask
`'YYYY-MM-DD HH24:MI:SS'`: digits in the numeric positions, `-` after year
and month, a space before the hours, `:` between hour/minute/second. -/
def matchesDateMask (s : String) : Bool :=
  match s.data with
  | [y1, y2, y3, y4, d1, m1, m2, d2, a1, a2, sp, h1, h2, c1, i1, i2, c2, s1, s2] =>
    y1.isDigit && y2.isDigit && y3.isDigit && y4.isDigit && d1 == '-' &&
    m1.isDigit && m2.isDigit && d2 == '-' && a1.isDigit && a2.isDigit &&
    sp == ' ' && h1.isDigit && h2.isDigit && c1 == ':' && i1.isDigit &&
    i2.isDigit && c2 == ':' && s1.isDigit && s2.isDigit
  | _ => false

/-! ## The orchestrated run as an event trace (source lines 87-273)

`cli_trace` is the shallow embedding of the body of `cli`: given the parsed
options and an environment carrying every external result the run consumes,
it returns the ordered list of observable events the run performs.  A raise
event is always the last element of the trace (the Python exception aborts
the run); a complete run ends with `Event.done`. -/

/-- External results consumed by one run. -/
structure Env where
  /-- `platform.uname()[1].split('.')[0]` (line 138). -/
  hostname : String
  /-- `datetime.now().strftime(...)` used in the log-file name (line 129). -/
  now : String
  /-- `rubrik.version` (line 151). -/
  version : String
  /-- The `'racName'` entry of `oracle_db_info`: `none` = key absent,
  `some none` = present with JSON null, `some (some v)` = present with
  string `v` (lines 154-158). -/
  racEntry : Option (Option String)
  /-- `oracle_db_info['oracleHome']` (line 171). -/
  sourceOracleHome : String
  /-- `oracle_db_info['latestRecoveryPoint']` (line 168). -/
  latestRecoveryPoint : String
  /-- `os.path.exists` on the chosen ORACLE_HOME (line 172). -/
  oracleHomeExists : String → Bool
  /-- `os.listdir(mount_path)` before the mount (line 176). -/
  dirsBefore : List String
  /-- `os.listdir(mount_path)` after the mount (line 187). -/
  dirsAfter : List String
  /-- Terminal status of the mount async request (lines 179-182). -/
  mountStatus : String
  /-- Output of the `startup nomount` SQL*Plus call (lines 207/216). -/
  startupOutput : String
  /-- Output of `select instance_name from v$instance;` (line 222). -/
  instanceQueryOutput : String
  /-- Terminal status of the unmount async request (lines 263-266). -/
  deleteStatus : String

/-- Observable events of a run, in source order. -/
inductive Event
  | readConfig
  | makeDirs (path : String)
  | createFile (path : String)
  | remoteConnect
  | remoteGetDbInfo
  | remoteResolve (s : TargetStrategy)
  | remoteMount
  | remoteWait
  | remoteUnmount
  | sqlplus (cmd : String)
  | rman
  | setEnvVar (key value : String)
  | warn (msg : String)
  | raiseWorkflow (msg : String)
  | raiseIndexError
  | raiseNameError
  | done
deriving DecidableEq, Repr

/-- Line 142's error message. -/
def name_too_long_msg (n : String) : String :=
  "The new oracle name: " ++ n ++
    " is too long. Oracle names must be 8 characters or less."

/-- Line 145's error message (note the trailing space, as in the source). -/
def name_clash_msg (n db : String) : String :=
  "The new oracle db name " ++ n ++ " cannot be the same as the source db name "
    ++ db ++ " "

/-- Line 174's error message. -/
def home_missing_msg (oh host : String) : String :=
  "The ORACLE_HOME: " ++ oh ++ " does not exist on the target host: " ++ host

/-- Line 184's error message. -/
def mount_failed_msg (st : String) : String :=
  "Mount of backup files did not complete successfully. Mount ended with status "
    ++ st

/-- Line 221's error message. -/
def already_running_msg (n : String) : String :=
  "There is an instance of " ++ n ++
    " all ready running on this host or refreshed DB did not start cleanly. Aborting clone"

/-- Line 226's error message. -/
def instance_check_msg (n : String) : String :=
  "DB Instance check failed. Instance name is not " ++ n ++ ". Aborting clone"

/-- Line 267's warning message. -/
def unmount_warn_msg (st : String) : String :=
  "Unmount of backup files failed with status: " ++ st

/-- The engine error text matched on line 219. -/
def ora_01081 : String := "ORA-01081: cannot start already-running ORACLE"

/-- Is the event a call to the backup backend? -/
def isBackendEvent : Event → Bool
  | .remoteConnect | .remoteGetDbInfo | .remoteResolve _
  | .remoteMount | .remoteWait | .remoteUnmount => true
  | _ => false

/-- Is the event the workflow-specific error (`RubrikOracleBackupMountCloneError`)? -/
def isRaiseWorkflowEvent : Event → Bool
  | .raiseWorkflow _ => true
  | _ => false

/-- Is the event any raised exception? -/
def isRaiseEvent : Event → Bool
  | .raiseWorkflow _ | .raiseIndexError | .raiseNameError => true
  | _ => false

/-- Is the event a mutation of local state (directory/file creation,
process-environment assignment)? -/
def isLocalMutationEvent : Event → Bool
  | .makeDirs _ | .createFile _ | .setEnvVar _ _ => true
  | _ => false

/-- A bootstrap action viewed as a trace event. -/
def bootEvent : BootAction → Event
  | .sqlplus c => .sqlplus c
  | .writeFile p _ => .createFile p

/-- Source lines 99-134, the part of the run before the first validation:
reading the configuration file (line 101) and, when a log path is set
(truthy), creating the log directory and the log file (lines 128-130). -/
def preBackendEvents (o : Opts) (env : Env) : List Event :=
  (if o.configuration_file.isSome then [Event.readConfig] else []) ++
  (if pyTruthyStr o.log_path then
    [Event.makeDirs (o.log_path.getD ""),
     Event.createFile (o.log_path.getD "" ++ "/" ++ o.new_oracle_name ++
       "_Clone_" ++ env.now ++ ".log")]
   else [])

/-- The strategy the run computes on lines 151-152. -/
def run_strategy (env : Env) : TargetStrategy :=
  choose_target_strategy (cdm_version_nums env.version) env.racEntry

/-- The backend resolution calls of lines 156/158/161 (none when the
pre-5.2.1 branch falls through leaving `target_id` unbound). -/
def resolve_events (env : Env) : List Event :=
  match run_strategy env with
  | TargetStrategy.unbound => []
  | s => [Event.remoteResolve s]

/-- Lines 170-171: the ORACLE_HOME the run uses — the option when truthy,
otherwise the source database's home from the backend metadata. -/
def chosen_home (o : Opts) (env : Env) : String :=
  if pyTruthyStr o.oracle_home then o.oracle_home.getD ""
  else env.sourceOracleHome

/-- Lines 257-272: run the duplicate script, then unmount; a non-SUCCEEDED
unmount status only logs a warning, and the run always reaches the end. -/
def restoreAndUnmountEvents (env : Env) : List Event :=
  [Event.rman, Event.remoteUnmount] ++
  (if env.deleteStatus ≠ "SUCCEEDED" then
    [Event.warn (unmount_warn_msg env.deleteStatus)]
   else []) ++
  [Event.done]

/-- Lines 198-258: environment-variable assignments, instance bootstrap, the
already-running and instance-identity checks, then restore and unmount. -/
def bootstrapAndRestoreEvents (o : Opts) (env : Env) (oh : String) : List Event :=
  [Event.setEnvVar "ORACLE_HOME" oh,
   Event.setEnvVar "ORACLE_SID" o.new_oracle_name] ++
  (bootstrap_actions (pyTruthyBool o.refresh_db) (pyTruthyBool o.no_spfile)
    oh o.new_oracle_name).map bootEvent ++
  (if pyInStr ora_01081.data env.startupOutput.data then
    [Event.raiseWorkflow (already_running_msg o.new_oracle_name)]
   else
    [Event.sqlplus "select instance_name from v$instance;"] ++
    (if !(pyInStr o.new_oracle_name.data env.instanceQueryOutput.data) then
      [Event.raiseWorkflow (instance_check_msg o.new_oracle_name)]
     else restoreAndUnmountEvents env))

/-- Lines 187-272: the run after a SUCCEEDED mount — directory diff (fatal
ambiguity unless exactly one new entry), mount-id extraction (unguarded
`IndexError` when the name has no underscore), then bootstrap and restore. -/
def postMountEvents (o : Opts) (env : Env) (oh : String) : List Event :=
  let lmd := new_mount_entries env.dirsBefore env.dirsAfter
  if lmd.length = 1 then
    match extract_live_mount_id (lmd.headD "") with
    | none => [Event.raiseIndexError]
    | some _ => bootstrapAndRestoreEvents o env oh
  else [Event.raiseWorkflow (ambiguity_msg o.mount_path)]

/-- Source lines 150-272: the run from the backend-version gate onwards
(entered only after both name validations pass).  `o` is already the
effective option record. -/
def afterMetadata (o : Opts) (env : Env) : List Event :=
  if !(env.oracleHomeExists (chosen_home o env)) then
    resolve_events env ++
      [Event.raiseWorkflow (home_missing_msg (chosen_home o env) env.hostname)]
  else
    match run_strategy env with
    | TargetStrategy.unbound => [Event.raiseNameError]
    | _ =>
      resolve_events env ++ [Event.remoteMount, Event.remoteWait] ++
      (if env.mountStatus ≠ "SUCCEEDED" then
        [Event.raiseWorkflow (mount_failed_msg env.mountStatus)]
       else postMountEvents o env (chosen_home o env))

/-- The full run (body of `cli`, lines 87-273): configuration and log setup,
`source_host_db.split(":")` (line 136), the two name validations (lines
140-145; the collision check dereferences `source_host_db[1]`, an unguarded
`IndexError` when the argument has no colon), then connection, metadata
lookup and the rest of the workflow. -/
def cli_trace (o0 : Opts) (env : Env) : List Event :=
  let o := effectiveOpts o0
  let pre := preBackendEvents o env
  let parts := splitOnChar ':' o.source_host_db.data
  if o.new_oracle_name.length > 8 then
    pre ++ [Event.raiseWorkflow (name_too_long_msg o.new_oracle_name)]
  else
    match parts[1]? with
    | none => pre ++ [Event.raiseIndexError]
    | some dbName =>
      if o.new_oracle_name.data = dbName then
        pre ++ [Event.raiseWorkflow (name_clash_msg o.new_oracle_name ⟨dbName⟩)]
      else
        pre ++ [Event.remoteConnect, Event.remoteGetDbInfo] ++ afterMetadata o env

/-! ## Concrete inputs used by witnesses and counterexamples -/

/-- A well-formed request, after the docstring's first example invocation. -/
def baseOpts : Opts where
  source_host_db := "jz-sourcehost-1:ora1db"
  mount_path := "/u02/oradata/restore"
  new_oracle_name := "oracln"
  configuration_file := none
  time_restore := none
  oracle_home := some "/u01/app/oracle/product/19.0.0/dbhome_1"
  parallelism := "4"
  no_spfile := some false
  no_file_name_check := some true
  refresh_db := some false
  control_files := none
  db_file_name_convert := none
  log_file_name_convert := none
  audit_file_dest := none
  core_dump_dest := none
  log_path := none

/-- An environment in which every external step succeeds. -/
def baseEnv : Env where
  hostname := "clonehost"
  now := "20201106-000600"
  version := "5.2.2-p3"
  racEntry := some none
  sourceOracleHome := "/u01/app/oracle/product/19.0.0/dbhome_1"
  latestRecoveryPoint := "2020-11-06T00:06:00"
  oracleHomeExists := fun _ => true
  dirsBefore := ["existing"]
  dirsAfter := ["existing", "ora1db_12345_backup"]
  mountStatus := "SUCCEEDED"
  startupOutput := "ORACLE instance started."
  instanceQueryOutput := "INSTANCE_NAME: oracln"
  deleteStatus := "SUCCEEDED"

/-- A refresh request without the filename-check flag. -/
def c1_opts : Opts :=
  { baseOpts with refresh_db := some true, no_file_name_check := some false }

/-- A configuration file setting `oracle_home` and `no_spfile` (two keys the
docstring's example configuration file documents as overridable). -/
def c5_cfg : List (String × String) :=
  [("oracle_home", "/u01/app/oracle/product/12.2.0/dbhome_1"), ("no_spfile", "true")]

/-- Options carrying that configuration file, with no `-o` on the command
line and the `no_spfile` flag left at its default. -/
def c5_opts : Opts :=
  { baseOpts with configuration_file := some c5_cfg, oracle_home := none,
                  no_spfile := some false }

/-- A run whose unmount request ends FAILED. -/
def c7_env : Env := { baseEnv with deleteStatus := "FAILED" }

/-- A too-long new name together with a configured log path. -/
def c8_opts : Opts :=
  { baseOpts with new_oracle_name := "oracle_clone9",
                  log_path := some "/home/oracle/clone_logs" }

/-- A successful mount that created the single new directory `d`. -/
def c9_env (d : String) : Env :=
  { baseEnv with dirsBefore := [], dirsAfter := [d] }

/-- A `source_host_db` argument with no colon. -/
def c10_opts : Opts := { baseOpts with source_host_db := "jz-sourcehost-1" }

/-- A colon-free source argument together with a too-long new name. -/
def c10_long_opts : Opts :=
  { baseOpts with source_host_db := "jz-sourcehost-1",
                  new_oracle_name := "oracle_clone9" }

/-! ## Helper lemmas -/

theorem splitOnChar_ne_nil (c : Char) (l : List Char) : splitOnChar c l ≠ [] := by
  cases l with
  | nil => simp [splitOnChar]
  | cons x xs =>
    simp only [splitOnChar]
    cases h : splitOnChar c xs with
    | nil => simp
    | cons hd tl => by_cases hx : x = c <;> simp [hx]

theorem getElem?_isSome_iff {α : Type} (l : List α) (i : Nat) :
    l[i]?.isSome = true ↔ i < l.length := by
  constructor
  · intro h
    by_contra hh
    rw [List.getElem?_eq_none (by omega)] at h
    simp at h
  · intro h
    rw [List.getElem?_eq_getElem h]
    rfl

theorem splitOnChar_length (c : Char) (l : List Char) :
    (splitOnChar c l).length = l.count c + 1 := by
  induction l with
  | nil => simp [splitOnChar]
  | cons x xs ih =>
    simp only [splitOnChar]
    cases h : splitOnChar c xs with
    | nil => exact absurd h (splitOnChar_ne_nil c xs)
    | cons hd tl =>
      rw [h] at ih
      by_cases hx : x = c
      · simp only [if_pos hx, List.length_cons, List.count_cons]
        simp only [List.length_cons] at ih
        simp [hx, ih]
      · simp only [if_neg hx, List.length_cons, List.count_cons]
        simp only [List.length_cons] at ih
        have hb : (x == c) = false := by simp [hx]
        simp [hb, ih]

/-- The mount-id token exists exactly when the directory name has an
underscore. -/
theorem extract_isSome_iff (d : String) :
    (extract_live_mount_id d).isSome ↔ '_' ∈ d.data := by
  unfold extract_live_mount_id
  rw [getElem?_isSome_iff, splitOnChar_length]
  constructor
  · intro h
    by_contra hm
    rw [← List.count_eq_zero] at hm
    omega
  · intro h
    have : d.data.count '_' ≠ 0 := fun h0 => (List.count_eq_zero.mp h0) h
    omega

theorem extract_none_of_no_underscore (d : String) (h : '_' ∉ d.data) :
    extract_live_mount_id d = none := by
  have := (extract_isSome_iff d).not.mpr h
  cases he : extract_live_mount_id d
  · rfl
  · rw [he] at this
    simp at this

theorem takeWhile_append_all {α : Type} (p : α → Bool) (a b : List α)
    (h : a.all p = true) : (a ++ b).takeWhile p = a ++ b.takeWhile p := by
  induction a with
  | nil => simp
  | cons x xs ih =>
    simp only [List.all_cons, Bool.and_eq_true] at h
    simp [List.takeWhile_cons, h.1, ih h.2]

/-- Every event of the pre-validation phase is a configuration read or a
log-directory/log-file creation. -/
theorem preBackendEvents_mem (o : Opts) (env : Env) (e : Event)
    (h : e ∈ preBackendEvents o env) :
    e = Event.readConfig ∨ (∃ p, e = Event.makeDirs p) ∨
      (∃ p, e = Event.createFile p) := by
  simp only [preBackendEvents, List.mem_append] at h
  rcases h with h | h
  · split at h
    · simp only [List.mem_singleton] at h
      exact Or.inl h
    · simp at h
  · split at h
    · simp only [List.mem_cons, List.mem_singleton] at h
      rcases h with h | h | h
      · exact Or.inr (Or.inl ⟨_, h⟩)
      · exact Or.inr (Or.inr ⟨_, h⟩)
      · simp at h
    · simp at h

/-- Generic closure fact for the pre-validation phase. -/
theorem preBackendEvents_all (o : Opts) (env : Env) (P : Event → Bool)
    (h1 : P Event.readConfig = true) (h2 : ∀ p, P (Event.makeDirs p) = true)
    (h3 : ∀ p, P (Event.createFile p) = true) :
    (preBackendEvents o env).all P = true := by
  rw [List.all_eq_true]
  intro e he
  rcases preBackendEvents_mem o env e he with h | ⟨p, h⟩ | ⟨p, h⟩ <;>
    subst h
  · exact h1
  · exact h2 p
  · exact h3 p

theorem rman_not_mem_pre (o : Opts) (env : Env) :
    Event.rman ∉ preBackendEvents o env := by
  intro hm
  rcases preBackendEvents_mem o env _ hm with h | ⟨p, h⟩ | ⟨p, h⟩ <;> simp at h

/-- A bootstrap action, seen as an event, is a SQL*Plus call or a file
creation. -/
theorem bootEvent_shape (a : BootAction) :
    (∃ c, bootEvent a = Event.sqlplus c) ∨ (∃ p, bootEvent a = Event.createFile p) := by
  cases a with
  | sqlplus c => exact Or.inl ⟨c, rfl⟩
  | writeFile p c => exact Or.inr ⟨p, rfl⟩

theorem rman_not_mem_boot (acts : List BootAction) :
    Event.rman ∉ acts.map bootEvent := by
  intro hm
  rcases List.mem_map.mp hm with ⟨a, _, ha⟩
  rcases bootEvent_shape a with ⟨c, hc⟩ | ⟨p, hp⟩ <;> simp_all

/-- Lines 260-272 always run to completion. -/
theorem restoreAndUnmount_getLast (env : Env) :
    (restoreAndUnmountEvents env).getLast? = some Event.done := by
  unfold restoreAndUnmountEvents
  split <;> rfl

theorem restoreAndUnmount_warn (env : Env) (h : env.deleteStatus ≠ "SUCCEEDED") :
    Event.warn (unmount_warn_msg env.deleteStatus) ∈ restoreAndUnmountEvents env := by
  unfold restoreAndUnmountEvents
  rw [if_pos h]
  simp

theorem restoreAndUnmount_ne_nil (env : Env) : restoreAndUnmountEvents env ≠ [] := by
  unfold restoreAndUnmountEvents
  split <;> simp

theorem rman_not_mem_setenv_boot (a b : Event) (acts : List BootAction)
    (ha : a ≠ Event.rman) (hb : b ≠ Event.rman) :
    Event.rman ∉ ([a, b] ++ acts.map bootEvent) := by
  intro hm
  rcases List.mem_append.mp hm with hm | hm
  · simp only [List.mem_cons, List.mem_singleton] at hm
    rcases hm with hm | hm | hm
    · exact ha hm.symm
    · exact hb hm.symm
    · simp at hm
  · exact rman_not_mem_boot _ hm

/-- If the bootstrap phase reached the restore execution, it ends in `done`
and warns on a failed unmount. -/
theorem bootstrapAndRestore_rman (o : Opts) (env : Env) (oh : String)
    (h : Event.rman ∈ bootstrapAndRestoreEvents o env oh) :
    (bootstrapAndRestoreEvents o env oh).getLast? = some Event.done ∧
    (env.deleteStatus ≠ "SUCCEEDED" →
      Event.warn (unmount_warn_msg env.deleteStatus) ∈ bootstrapAndRestoreEvents o env oh) := by
  unfold bootstrapAndRestoreEvents at h ⊢
  by_cases hora : pyInStr ora_01081.data env.startupOutput.data = true
  · rw [if_pos hora] at h
    exfalso
    rcases List.mem_append.mp h with hm | hm
    · exact rman_not_mem_setenv_boot _ _ _ (by simp) (by simp) hm
    · simp at hm
  · rw [if_neg hora] at h ⊢
    by_cases hq : (!pyInStr o.new_oracle_name.data env.instanceQueryOutput.data) = true
    · rw [if_pos hq] at h
      exfalso
      rcases List.mem_append.mp h with hm | hm
      · exact rman_not_mem_setenv_boot _ _ _ (by simp) (by simp) hm
      · rcases List.mem_append.mp hm with hm | hm <;> simp at hm
    · rw [if_neg hq] at h ⊢
      constructor
      · rw [List.getLast?_append_of_ne_nil _
          (by simp [restoreAndUnmount_ne_nil env] :
            ([Event.sqlplus "select instance_name from v$instance;"] ++
              restoreAndUnmountEvents env) ≠ [])]
        rw [List.getLast?_append_of_ne_nil _ (restoreAndUnmount_ne_nil env)]
        exact restoreAndUnmount_getLast env
      · intro hd
        exact List.mem_append.mpr (Or.inr
          (List.mem_append.mpr (Or.inr (restoreAndUnmount_warn env hd))))

theorem bootstrapAndRestore_ne_nil (o : Opts) (env : Env) (oh : String) :
    bootstrapAndRestoreEvents o env oh ≠ [] := by
  unfold bootstrapAndRestoreEvents
  simp

theorem postMount_rman (o : Opts) (env : Env) (oh : String)
    (h : Event.rman ∈ postMountEvents o env oh) :
    (postMountEvents o env oh).getLast? = some Event.done ∧
    (env.deleteStatus ≠ "SUCCEEDED" →
      Event.warn (unmount_warn_msg env.deleteStatus) ∈ postMountEvents o env oh) := by
  unfold postMountEvents at h ⊢
  by_cases hl : (new_mount_entries env.dirsBefore env.dirsAfter).length = 1
  · rw [if_pos hl] at h ⊢
    cases he : extract_live_mount_id
        ((new_mount_entries env.dirsBefore env.dirsAfter).headD "") with
    | none =>
      rw [he] at h
      simp at h
    | some mid =>
      rw [he] at h
      exact bootstrapAndRestore_rman o env oh h
  · rw [if_neg hl] at h
    simp at h

theorem postMount_ne_nil (o : Opts) (env : Env) (oh : String) :
    postMountEvents o env oh ≠ [] := by
  unfold postMountEvents
  by_cases hl : (new_mount_entries env.dirsBefore env.dirsAfter).length = 1
  · rw [if_pos hl]
    cases he : extract_live_mount_id
        ((new_mount_entries env.dirsBefore env.dirsAfter).headD "") with
    | none => simp
    | some mid => exact bootstrapAndRestore_ne_nil o env oh
  · rw [if_neg hl]
    simp

theorem rman_not_mem_resolve (env : Env) : Event.rman ∉ resolve_events env := by
  unfold resolve_events
  cases run_strategy env <;> simp

theorem afterMetadata_rman (o : Opts) (env : Env)
    (h : Event.rman ∈ afterMetadata o env) :
    (afterMetadata o env).getLast? = some Event.done ∧
    (env.deleteStatus ≠ "SUCCEEDED" →
      Event.warn (unmount_warn_msg env.deleteStatus) ∈ afterMetadata o env) := by
  unfold afterMetadata at h ⊢
  by_cases hoh : (!(env.oracleHomeExists (chosen_home o env))) = true
  · rw [if_pos hoh] at h
    exfalso
    rcases List.mem_append.mp h with hm | hm
    · exact rman_not_mem_resolve env hm
    · simp at hm
  · rw [if_neg hoh] at h ⊢
    cases hs : run_strategy env with
    | unbound =>
      rw [hs] at h
      simp at h
    | rac =>
      rw [hs] at h
      by_cases hms : env.mountStatus = "SUCCEEDED"
      · rw [if_neg (not_not_intro hms)] at h ⊢
        have hpm : Event.rman ∈ postMountEvents o env (chosen_home o env) := by
          rcases List.mem_append.mp h with hm | hm
          · exfalso
            rcases List.mem_append.mp hm with hm | hm
            · exact rman_not_mem_resolve env hm
            · simp at hm
          · exact hm
        obtain ⟨h1, h2⟩ := postMount_rman o env _ hpm
        refine ⟨?_, fun hd => List.mem_append.mpr (Or.inr (h2 hd))⟩
        rw [List.getLast?_append_of_ne_nil _ (postMount_ne_nil o env _)]
        exact h1
      · rw [if_pos hms] at h
        exfalso
        rcases List.mem_append.mp h with hm | hm
        · rcases List.mem_append.mp hm with hm | hm
          · exact rman_not_mem_resolve env hm
          · simp at hm
        · simp at hm
    | host =>
      rw [hs] at h
      by_cases hms : env.mountStatus = "SUCCEEDED"
      · rw [if_neg (not_not_intro hms)] at h ⊢
        have hpm : Event.rman ∈ postMountEvents o env (chosen_home o env) := by
          rcases List.mem_append.mp h with hm | hm
          · exfalso
            rcases List.mem_append.mp hm with hm | hm
            · exact rman_not_mem_resolve env hm
            · simp at hm
          · exact hm
        obtain ⟨h1, h2⟩ := postMount_rman o env _ hpm
        refine ⟨?_, fun hd => List.mem_append.mpr (Or.inr (h2 hd))⟩
        rw [List.getLast?_append_of_ne_nil _ (postMount_ne_nil o env _)]
        exact h1
      · rw [if_pos hms] at h
        exfalso
        rcases List.mem_append.mp h with hm | hm
        · rcases List.mem_append.mp hm with hm | hm
          · exact rman_not_mem_resolve env hm
          · simp at hm
        · simp at hm
    | unified =>
      rw [hs] at h
      by_cases hms : env.mountStatus = "SUCCEEDED"
      · rw [if_neg (not_not_intro hms)] at h ⊢
        have hpm : Event.rman ∈ postMountEvents o env (chosen_home o env) := by
          rcases List.mem_append.mp h with hm | hm
          · exfalso
            rcases List.mem_append.mp hm with hm | hm
            · exact rman_not_mem_resolve env hm
            · simp at hm
          · exact hm
        obtain ⟨h1, h2⟩ := postMount_rman o env _ hpm
        refine ⟨?_, fun hd => List.mem_append.mpr (Or.inr (h2 hd))⟩
        rw [List.getLast?_append_of_ne_nil _ (postMount_ne_nil o env _)]
        exact h1
      · rw [if_pos hms] at h
        exfalso
        rcases List.mem_append.mp h with hm | hm
        · rcases List.mem_append.mp hm with hm | hm
          · exact rman_not_mem_resolve env hm
          · simp at hm
        · simp at hm

theorem afterMetadata_ne_nil (o : Opts) (env : Env) : afterMetadata o env ≠ [] := by
  unfold afterMetadata
  by_cases hoh : (!(env.oracleHomeExists (chosen_home o env))) = true
  · rw [if_pos hoh]
    simp
  · rw [if_neg hoh]
    cases hs : run_strategy env <;> simp [List.append_eq_nil]

theorem preBackendEvents_any_false (o : Opts) (env : Env) (P : Event → Bool)
    (h1 : P Event.readConfig = false) (h2 : ∀ p, P (Event.makeDirs p) = false)
    (h3 : ∀ p, P (Event.createFile p) = false) :
    (preBackendEvents o env).any P = false := by
  rw [List.any_eq_false]
  intro e he
  rcases preBackendEvents_mem o env e he with h | ⟨p, h⟩ | ⟨p, h⟩ <;> subst h <;>
    simp [h1, h2, h3]

/-- For a mount that created exactly the single new directory `d`, the whole
run computes to a fixed prefix followed by the branch on the mount-id
extraction from `d`. -/
theorem c9_trace (d : String) (hex : extract_live_mount_id d = none) :
    cli_trace baseOpts (c9_env d) =
      [Event.remoteConnect, Event.remoteGetDbInfo, Event.remoteResolve TargetStrategy.unified,
       Event.remoteMount, Event.remoteWait, Event.raiseIndexError] := by
  have hshape : cli_trace baseOpts (c9_env d) =
      [Event.remoteConnect, Event.remoteGetDbInfo, Event.remoteResolve TargetStrategy.unified,
       Event.remoteMount, Event.remoteWait] ++
      (match extract_live_mount_id d with
       | none => [Event.raiseIndexError]
       | some _ =>
         bootstrapAndRestoreEvents (effectiveOpts baseOpts) (c9_env d)
           (chosen_home (effectiveOpts baseOpts) (c9_env d))) := rfl
  rw [hshape, hex]
  rfl

theorem new_mount_entries_toFinset (before after : List String) :
    (new_mount_entries before after).toFinset = after.toFinset \ before.toFinset := by
  unfold new_mount_entries
  have hd : ((after.filter (fun d => !(before.contains d))).dedup).toFinset =
      (after.filter (fun d => !(before.contains d))).toFinset := by
    ext x
    simp [List.mem_dedup]
  rw [hd, List.toFinset_filter, Finset.sdiff_eq_filter]
  apply Finset.filter_congr
  intro x _
  simp

theorem new_mount_entries_length_card (before after : List String) :
    (new_mount_entries before after).length = (after.toFinset \ before.toFinset).card := by
  rw [← new_mount_entries_toFinset]
  unfold new_mount_entries
  rw [List.card_toFinset, List.dedup_idem]

/-! ## The claims -/

/-- C1 (corrected): the script never validates the documented requirement
that `refresh_db` implies `no_file_name_check`.  For every input whose
effective options have `refresh_db` truthy and `no_file_name_check` falsy but
which passes the two name validations, the run raises no workflow error
before its first backend call, and it does reach the backend. -/
theorem c1_refresh_proceeds_to_backend (o : Opts) (env : Env)
    (hr : pyTruthyBool (effectiveOpts o).refresh_db = true)
    (hn : pyTruthyBool (effectiveOpts o).no_file_name_check = false)
    (hlen : ¬(8 < (effectiveOpts o).new_oracle_name.length))
    (db : List Char)
    (hdb : (splitOnChar ':' (effectiveOpts o).source_host_db.data)[1]? = some db)
    (hne : ¬((effectiveOpts o).new_oracle_name.data = db)) :
    Event.remoteConnect ∈ cli_trace o env ∧
    ((cli_trace o env).takeWhile (fun e => !isBackendEvent e)).all
      (fun e => !isRaiseWorkflowEvent e) = true := by
  simp only [cli_trace]
  rw [if_neg hlen]
  simp only [hdb]
  rw [if_neg hne]
  constructor
  · exact List.mem_append.mpr (Or.inl (List.mem_append.mpr (Or.inr (by simp))))
  · rw [List.append_assoc, takeWhile_append_all _ _ _
      (preBackendEvents_all _ _ _ rfl (fun p => rfl) (fun p => rfl))]
    have h2 : (([Event.remoteConnect, Event.remoteGetDbInfo] ++
        afterMetadata (effectiveOpts o) env).takeWhile (fun e => !isBackendEvent e)) = [] := by
      rw [List.cons_append, List.takeWhile_cons]
      simp [isBackendEvent]
    rw [h2, List.all_append,
      preBackendEvents_all _ _ _ rfl (fun p => rfl) (fun p => rfl)]
    rfl

/-- Witness for C1's theorem: a concrete refresh-without-filename-check
request on which the run reaches the backend. -/
theorem c1_refresh_proceeds_witness :
    pyTruthyBool (effectiveOpts c1_opts).refresh_db = true ∧
    pyTruthyBool (effectiveOpts c1_opts).no_file_name_check = false ∧
    Event.remoteConnect ∈ cli_trace c1_opts baseEnv :=
  ⟨by decide, by decide,
    (c1_refresh_proceeds_to_backend c1_opts baseEnv (by decide) (by decide) (by decide)
      "ora1db".data (by decide) (by decide)).1⟩

/-- Counterexample to C1 as stated: a concrete run with `refresh_db` set and
`no_file_name_check` unset raises no workflow error at all — it performs the
mount and completes — instead of being rejected before any backend call. -/
theorem c1_refresh_unchecked_counterexample :
    pyTruthyBool (effectiveOpts c1_opts).refresh_db = true ∧
    pyTruthyBool (effectiveOpts c1_opts).no_file_name_check = false ∧
    (cli_trace c1_opts baseEnv).all (fun e => !isRaiseWorkflowEvent e) = true ∧
    Event.remoteMount ∈ cli_trace c1_opts baseEnv ∧
    (cli_trace c1_opts baseEnv).getLast? = some Event.done := by decide

/-- C2 (corrected): the minimal parameter file is synthesized exactly when
`no_spfile` is FALSE (the spec has the two branches swapped): with
`no_spfile` falsy, bootstrap writes `init<name>.ora` holding only the new
database name and starts with that pfile; with `no_spfile` truthy it issues a
plain `startup nomount` and writes nothing. -/
theorem c2_minimal_pfile_iff_not_no_spfile (r ns : Bool) (oh n : String) :
    (bootstrap_actions r ns oh n).any isWriteFileAct = !ns := by
  unfold bootstrap_actions
  cases r <;> cases ns <;> simp [isWriteFileAct]

/-- Counterexample to C2 as stated: with `no_spfile = true` (and no refresh)
the bootstrap performs no file write at all — it is a single plain
`startup nomount` — whereas the claim says the minimal parameter file is
synthesized exactly then. -/
theorem c2_spfile_branch_counterexample :
    (bootstrap_actions false true "/u01/app/oracle/product/19.0.0/dbhome_1" "oracln").any
      isWriteFileAct = false ∧
    bootstrap_actions false true "/u01/app/oracle/product/19.0.0/dbhome_1" "oracln" =
      [BootAction.sqlplus "startup nomount"] ∧
    (bootstrap_actions false false "/u01/app/oracle/product/19.0.0/dbhome_1" "oracln").any
      isWriteFileAct = true := by decide

/-- C3 (code_bug): the version gate on line 152 does not implement the
component-wise "below 5.2.1" comparison its own comment and log messages
announce.  At version 4.5.0 — component-wise below 5.2.1 — the gate answers
false, so a clustered source is resolved through the unified
`get_target_id` path instead of the RAC lookup; at 5.1.2 the gate is
correct, showing the two genuinely disagree. -/
theorem c3_version_gate_bug :
    pre_521_gate 4 5 0 = false ∧
    spec_version_below_521 4 5 0 = true ∧
    choose_target_strategy (cdm_version_nums "4.5.0-EA1") (some (some "rac-cluster-1")) =
      TargetStrategy.unified ∧
    pre_521_gate 5 1 2 = true ∧
    spec_version_below_521 5 1 2 = true ∧
    choose_target_strategy (cdm_version_nums "5.1.2-p1") (some (some "rac-cluster-1")) =
      TargetStrategy.rac := by decide

/-- C4 (corrected): whenever a (truthy) restore time is specified the script
does contain an until-time clause, but its literal is the input with every
`T` deleted — not replaced by a space — so the ISO-8601 example does not
textually conform to the declared `'YYYY-MM-DD HH24:MI:SS'` mask. -/
theorem c4_until_time_piece (p : Nat) (n : String) (t : String) (ns : Bool)
    (cf df lf af cd : Option String) (mp sd : String) (fc : Bool)
    (h : t ≠ "") :
    ("until time \"TO_DATE('" ++ stripT t ++ "','YYYY-MM-DD HH24:MI:SS')\"  ")
      ∈ duplicate_pieces p n (some t) ns cf df lf af cd mp sd fc ∧
    matchesDateMask (stripT "2019-04-30T18:23:21") = false := by
  constructor
  · have ht : pyTruthyStr (some t) = true := by
      unfold pyTruthyStr
      obtain ⟨l⟩ := t
      cases l with
      | nil => exact absurd rfl h
      | cons c cs => rfl
    simp [duplicate_pieces, ht]
  · decide

/-- Witness for C4's theorem at the spec's ISO-8601 example time. -/
theorem c4_until_time_witness :
    ("2019-04-30T18:23:21" ≠ "") ∧
    ("until time \"TO_DATE('" ++ stripT "2019-04-30T18:23:21" ++
        "','YYYY-MM-DD HH24:MI:SS')\"  ")
      ∈ duplicate_pieces 4 "oracln" (some "2019-04-30T18:23:21") false none none none none none
        "/u02/oradata/restore" "ora1db" false :=
  ⟨by decide,
    (c4_until_time_piece 4 "oracln" "2019-04-30T18:23:21" false none none none none none
      "/u02/oradata/restore" "ora1db" false (by decide)).1⟩

/-- Counterexample to C4 as stated: for the ISO-8601 input
2019-04-30T18:23:21 the embedded literal is `2019-04-3018:23:21` (the `T`
deleted, no space), which fails the declared format mask, while the properly
normalized `2019-04-30 18:23:21` would satisfy it. -/
theorem c4_until_literal_counterexample :
    stripT "2019-04-30T18:23:21" = "2019-04-3018:23:21" ∧
    matchesDateMask "2019-04-3018:23:21" = false ∧
    matchesDateMask "2019-04-30 18:23:21" = true ∧
    pyInStr "TO_DATE('2019-04-3018:23:21','YYYY-MM-DD HH24:MI:SS')".data
      (duplicate_script 4 "oracln" (some "2019-04-30T18:23:21") false none none none none none
        "/u02/oradata/restore" "ora1db" false).data = true := by decide

/-- C5 (code_bug): the configuration file does NOT override every documented
optional parameter.  With a file binding `oracle_home` and `no_spfile = true`
(both listed in the script's own example configuration), the applied options
keep `oracle_home` unchanged — no branch reads that key — and set
`no_spfile` to `None` — the guard tests key `no_spfile` but the assignment
reads the absent key `spfile` — although the file's own `no_spfile` value
parses to `True`. -/
theorem c5_config_override_bug :
    cfgGet c5_cfg "oracle_home" = some "/u01/app/oracle/product/12.2.0/dbhome_1" ∧
    cfgGetBoolean c5_cfg "no_spfile" = some true ∧
    (applyConfig c5_cfg c5_opts).oracle_home = none ∧
    (applyConfig c5_cfg c5_opts).no_spfile = none ∧
    (effectiveOpts c5_opts).oracle_home = none ∧
    (effectiveOpts c5_opts).no_spfile = none := by decide

/-- C6 (confirmed): the discovery step takes the set difference of the
post-mount and pre-mount listings; when that difference is the singleton
`{d}` the backup path is the mount path joined with `d`, and for every other
cardinality the fatal ambiguity error is raised. -/
theorem c6_discovery_cardinality (mp : String) (before after : List String) (d : String) :
    (after.toFinset \ before.toFinset = {d} →
      discover_live_mount mp before after = Except.ok (mp ++ "/" ++ d)) ∧
    ((after.toFinset \ before.toFinset).card ≠ 1 →
      discover_live_mount mp before after = Except.error (ambiguity_msg mp)) := by
  constructor
  · intro h
    have hlen : (new_mount_entries before after).length = 1 := by
      rw [new_mount_entries_length_card, h, Finset.card_singleton]
    obtain ⟨a, ha⟩ := List.length_eq_one.mp hlen
    have had : a = d := by
      have hts : (new_mount_entries before after).toFinset = {d} := by
        rw [new_mount_entries_toFinset, h]
      rw [ha] at hts
      simpa using hts
    unfold discover_live_mount
    rw [ha, had]
    rfl
  · intro h
    have hlen : (new_mount_entries before after).length ≠ 1 := by
      rw [new_mount_entries_length_card]
      exact h
    unfold discover_live_mount
    rw [if_neg hlen]

/-- Witness for C6's theorem: one new directory appears and becomes the
backup path. -/
theorem c6_discovery_witness :
    ((["existing", "ORCLN_12345"] : List String).toFinset \
        (["existing"] : List String).toFinset = {"ORCLN_12345"}) ∧
    discover_live_mount "/u02/oradata/restore" ["existing"] ["existing", "ORCLN_12345"] =
      Except.ok "/u02/oradata/restore/ORCLN_12345" :=
  ⟨by decide,
    (c6_discovery_cardinality "/u02/oradata/restore" ["existing"]
      ["existing", "ORCLN_12345"] "ORCLN_12345").1 (by decide)⟩

/-- C7 (confirmed): once the run has executed the restore script, it always
runs to completion — the trace ends in `done`, never in a raise — and a
non-SUCCEEDED unmount status only adds the unmount warning. -/
theorem c7_unmount_failure_nonfatal (o : Opts) (env : Env)
    (h : Event.rman ∈ cli_trace o env) :
    (cli_trace o env).getLast? = some Event.done ∧
    (env.deleteStatus ≠ "SUCCEEDED" →
      Event.warn (unmount_warn_msg env.deleteStatus) ∈ cli_trace o env) := by
  simp only [cli_trace] at h ⊢
  by_cases hlen : 8 < (effectiveOpts o).new_oracle_name.length
  · rw [if_pos hlen] at h
    exfalso
    rcases List.mem_append.mp h with hm | hm
    · exact rman_not_mem_pre _ _ hm
    · simp at hm
  · rw [if_neg hlen] at h ⊢
    cases hp : (splitOnChar ':' (effectiveOpts o).source_host_db.data)[1]? with
    | none =>
      rw [hp] at h
      exfalso
      rcases List.mem_append.mp h with hm | hm
      · exact rman_not_mem_pre _ _ hm
      · simp at hm
    | some dbName =>
      rw [hp] at h
      dsimp only at h ⊢
      by_cases hne : (effectiveOpts o).new_oracle_name.data = dbName
      · rw [if_pos hne] at h
        exfalso
        rcases List.mem_append.mp h with hm | hm
        · exact rman_not_mem_pre _ _ hm
        · simp at hm
      · rw [if_neg hne] at h ⊢
        have hafter : Event.rman ∈ afterMetadata (effectiveOpts o) env := by
          rcases List.mem_append.mp h with hm | hm
          · exfalso
            rcases List.mem_append.mp hm with hm | hm
            · exact rman_not_mem_pre _ _ hm
            · simp at hm
          · exact hm
        obtain ⟨h1, h2⟩ := afterMetadata_rman (effectiveOpts o) env hafter
        constructor
        · rw [List.getLast?_append_of_ne_nil _ (afterMetadata_ne_nil _ env)]
          exact h1
        · intro hd
          exact List.mem_append.mpr (Or.inr (h2 hd))

/-- Witness for C7's theorem: a concrete full run whose unmount ends FAILED
still finishes with `done` and logs the unmount warning. -/
theorem c7_unmount_witness :
    Event.rman ∈ cli_trace baseOpts c7_env ∧
    (cli_trace baseOpts c7_env).getLast? = some Event.done ∧
    Event.warn (unmount_warn_msg "FAILED") ∈ cli_trace baseOpts c7_env :=
  ⟨by decide, (c7_unmount_failure_nonfatal baseOpts c7_env (by decide)).1,
    (c7_unmount_failure_nonfatal baseOpts c7_env (by decide)).2 (by decide)⟩

/-- C8 (corrected): an input failing the name-length or the name-collision
validation is rejected before any backend call — the whole trace contains no
backend event and does contain the workflow error — though not before all
local mutation (see the counterexample). -/
theorem c8_validation_before_backend (o : Opts) (env : Env)
    (h : 8 < (effectiveOpts o).new_oracle_name.length ∨
      ∃ db, (splitOnChar ':' (effectiveOpts o).source_host_db.data)[1]? = some db ∧
        (effectiveOpts o).new_oracle_name.data = db) :
    (cli_trace o env).all (fun e => !isBackendEvent e) = true ∧
    (cli_trace o env).any isRaiseWorkflowEvent = true := by
  simp only [cli_trace]
  by_cases hlen : 8 < (effectiveOpts o).new_oracle_name.length
  · rw [if_pos hlen]
    constructor
    · rw [List.all_append, preBackendEvents_all _ _ _ rfl (fun p => rfl) (fun p => rfl)]
      rfl
    · rw [List.any_append]
      simp [isRaiseWorkflowEvent]
  · rcases h with h | ⟨db, hdb, heq⟩
    · exact absurd h hlen
    · rw [if_neg hlen]
      simp only [hdb]
      rw [if_pos heq]
      constructor
      · rw [List.all_append, preBackendEvents_all _ _ _ rfl (fun p => rfl) (fun p => rfl)]
        rfl
      · rw [List.any_append]
        simp [isRaiseWorkflowEvent]

/-- Witness for C8's theorem: a 13-character instance name is rejected with
no backend event in the trace. -/
theorem c8_validation_witness :
    8 < (effectiveOpts c8_opts).new_oracle_name.length ∧
    (cli_trace c8_opts baseEnv).all (fun e => !isBackendEvent e) = true ∧
    (cli_trace c8_opts baseEnv).any isRaiseWorkflowEvent = true :=
  ⟨by decide,
    (c8_validation_before_backend c8_opts baseEnv (Or.inl (by decide))).1,
    (c8_validation_before_backend c8_opts baseEnv (Or.inl (by decide))).2⟩

/-- Counterexample to C8 as stated: with a log path configured and a
too-long name, the run's very first event is the log-directory creation
(index 0), followed by the log-file creation (index 1), and only then the
validation error (index 2) — local filesystem mutation precedes the
validation error. -/
theorem c8_mutation_before_validation :
    (cli_trace c8_opts baseEnv).findIdx? isLocalMutationEvent = some 0 ∧
    (cli_trace c8_opts baseEnv).findIdx? isRaiseWorkflowEvent = some 2 ∧
    (cli_trace c8_opts baseEnv)[0]? = some (Event.makeDirs "/home/oracle/clone_logs") := by
  decide

/-- C9 (confirmed): mount-identifier extraction is partial — it yields a
token exactly when the directory name contains an underscore — and on a run
whose single new mount directory has no underscore, the mount has already
happened when the unguarded index error (not the workflow error) aborts the
run. -/
theorem c9_mount_id_extraction (d : String) :
    ((extract_live_mount_id d).isSome ↔ '_' ∈ d.data) ∧
    ('_' ∉ d.data →
      Event.remoteMount ∈ cli_trace baseOpts (c9_env d) ∧
      (cli_trace baseOpts (c9_env d)).getLast? = some Event.raiseIndexError ∧
      (cli_trace baseOpts (c9_env d)).any isRaiseWorkflowEvent = false) := by
  refine ⟨extract_isSome_iff d, fun h => ?_⟩
  rw [c9_trace d (extract_none_of_no_underscore d h)]
  refine ⟨by simp, rfl, rfl⟩

/-- Witness for C9's theorem at a concrete underscore-free directory name. -/
theorem c9_mount_id_witness :
    ('_' ∉ "RESTOREDIR".data) ∧
    (cli_trace baseOpts (c9_env "RESTOREDIR")).getLast? = some Event.raiseIndexError :=
  ⟨by decide, ((c9_mount_id_extraction "RESTOREDIR").2 (by decide)).2.1⟩

/-- C10 (corrected): for a colon-free `source_host_db` whose new name passes
the length check, the run dies with the unguarded index error while
evaluating the name-collision check — before any workflow error and before
any backend call.  (When the name is too long, the length validation fires
first; see the counterexample.) -/
theorem c10_no_colon_index_error (o : Opts) (env : Env)
    (hc : ':' ∉ (effectiveOpts o).source_host_db.data)
    (hlen : ¬(8 < (effectiveOpts o).new_oracle_name.length)) :
    (cli_trace o env).getLast? = some Event.raiseIndexError ∧
    (cli_trace o env).any isRaiseWorkflowEvent = false ∧
    (cli_trace o env).all (fun e => !isBackendEvent e) = true := by
  have hparts : (splitOnChar ':' (effectiveOpts o).source_host_db.data).length = 1 := by
    rw [splitOnChar_length, List.count_eq_zero.mpr hc]
  have hnone : (splitOnChar ':' (effectiveOpts o).source_host_db.data)[1]? = none :=
    List.getElem?_eq_none (by omega)
  simp only [cli_trace]
  rw [if_neg hlen]
  simp only [hnone]
  refine ⟨?_, ?_, ?_⟩
  · simp
  · rw [List.any_append,
      preBackendEvents_any_false _ _ _ rfl (fun p => rfl) (fun p => rfl)]
    rfl
  · rw [List.all_append, preBackendEvents_all _ _ _ rfl (fun p => rfl) (fun p => rfl)]
    rfl

/-- Witness for C10's theorem: a colon-free source with a valid name ends in
the index error. -/
theorem c10_no_colon_witness :
    (':' ∉ (effectiveOpts c10_opts).source_host_db.data) ∧
    (cli_trace c10_opts baseEnv).getLast? = some Event.raiseIndexError :=
  ⟨by decide, (c10_no_colon_index_error c10_opts baseEnv (by decide) (by decide)).1⟩

/-- Counterexample to C10 as stated: with a colon-free source AND a too-long
name, the length validation's workflow error is produced first and the index
error never happens, so the claim's "for every colon-free argument the index
error precedes any validation message" fails. -/
theorem c10_length_error_first :
    (':' ∉ (effectiveOpts c10_long_opts).source_host_db.data) ∧
    (cli_trace c10_long_opts baseEnv).getLast? =
      some (Event.raiseWorkflow (name_too_long_msg "oracle_clone9")) ∧
    Event.raiseIndexError ∉ cli_trace c10_long_opts baseEnv := by decide
